import Mathlib

/-!
Shallow embedding of `test_process_executor` (`src/lib.rs`): an `Executor`
holding environment bindings, whose `run` method launches a subprocess and
panics with a pretty-printed diagnostic on any failure.

Modelling choices:
* OS-string tokens (`S: AsRef<OsStr>`) are byte sequences: `Token := List Nat`.
* `std::str::from_utf8` is modelled by `utf8Decode?` (strict UTF-8 decoding to
  a `List Char`, `none` on invalid input), and `OsStr::to_string_lossy` by
  `utf8DecodeLossy` (total, replaces each maximal invalid subpart by U+FFFD),
  both following the byte-range tables of Rust's `core::str` validation.
* The OS process boundary (`Command::output()`) is a parameter: a spawn
  oracle mapping the invocation handed to the OS to either an `Output`
  (status + captured stdout/stderr bytes) or a spawn error.
* Panics are modelled by the structured `RunOutcome`; a panic raised while
  the diagnostic is being formatted (the `from_utf8(..).unwrap()` calls
  inside `Display::fmt`) makes the formatter return `none`.
-/

/-- A command-line / environment token: a raw OS byte string. -/
abbrev Token := List Nat

/-- Is `b` a UTF-8 continuation byte (`0x80 ..= 0xBF`)? -/
def isCont (b : Nat) : Bool := 0x80 ≤ b && b ≤ 0xBF

/-- Valid second byte of a 3-byte UTF-8 sequence with lead `b`, per Rust's
`core::str` validation table: `(0xE0, 0xA0..=0xBF)`, `(0xE1..=0xEC, cont)`,
`(0xED, 0x80..=0x9F)`, `(0xEE..=0xEF, cont)`. -/
def valid2nd3 (b b2 : Nat) : Bool :=
  (b = 0xE0 && 0xA0 ≤ b2 && b2 ≤ 0xBF) ||
  (0xE1 ≤ b && b ≤ 0xEC && isCont b2) ||
  (b = 0xED && 0x80 ≤ b2 && b2 ≤ 0x9F) ||
  (0xEE ≤ b && b ≤ 0xEF && isCont b2)

/-- Valid second byte of a 4-byte UTF-8 sequence with lead `b`:
`(0xF0, 0x90..=0xBF)`, `(0xF1..=0xF3, cont)`, `(0xF4, 0x80..=0x8F)`. -/
def valid2nd4 (b b2 : Nat) : Bool :=
  (b = 0xF0 && 0x90 ≤ b2 && b2 ≤ 0xBF) ||
  (0xF1 ≤ b && b ≤ 0xF3 && isCont b2) ||
  (b = 0xF4 && 0x80 ≤ b2 && b2 ≤ 0x8F)

/-- Strict UTF-8 decoding, mirroring `std::str::from_utf8`: `some` of the
decoded characters exactly when the bytes are valid UTF-8, else `none`. -/
def utf8Decode? : List Nat → Option (List Char)
  | [] => some []
  | b :: bs =>
    if b ≤ 0x7F then (utf8Decode? bs).map (fun cs => Char.ofNat b :: cs)
    else if 0xC2 ≤ b && b ≤ 0xDF then
      match bs with
      | b2 :: bs2 =>
        if isCont b2 then
          (utf8Decode? bs2).map (fun cs => Char.ofNat ((b % 0x20) * 64 + b2 % 64) :: cs)
        else none
      | [] => none
    else if 0xE0 ≤ b && b ≤ 0xEF then
      match bs with
      | b2 :: b3 :: bs3 =>
        if valid2nd3 b b2 && isCont b3 then
          (utf8Decode? bs3).map
            (fun cs => Char.ofNat ((b % 0x10) * 4096 + (b2 % 64) * 64 + b3 % 64) :: cs)
        else none
      | _ => none
    else if 0xF0 ≤ b && b ≤ 0xF4 then
      match bs with
      | b2 :: b3 :: b4 :: bs4 =>
        if valid2nd4 b b2 && isCont b3 && isCont b4 then
          (utf8Decode? bs4).map
            (fun cs =>
              Char.ofNat ((b % 8) * 262144 + (b2 % 64) * 4096 + (b3 % 64) * 64 + b4 % 64) :: cs)
        else none
      | _ => none
    else none

/-- The U+FFFD replacement character emitted by lossy decoding. -/
def replChar : Char := Char.ofNat 0xFFFD

/-- Lossy UTF-8 decoding, mirroring `OsStr::to_string_lossy` (on Unix,
`String::from_utf8_lossy`): each maximal subpart of an ill-formed sequence
is replaced by U+FFFD, following the `error_len` policy of Rust's
`core::str` validation. Total: never fails. -/
def utf8DecodeLossy : List Nat → List Char
  | [] => []
  | b :: bs =>
    if b ≤ 0x7F then Char.ofNat b :: utf8DecodeLossy bs
    else if 0xC2 ≤ b && b ≤ 0xDF then
      match bs with
      | b2 :: bs2 =>
        if isCont b2 then
          Char.ofNat ((b % 0x20) * 64 + b2 % 64) :: utf8DecodeLossy bs2
        else replChar :: utf8DecodeLossy (b2 :: bs2)
      | [] => [replChar]
    else if 0xE0 ≤ b && b ≤ 0xEF then
      match bs with
      | b2 :: bs2 =>
        if valid2nd3 b b2 then
          match bs2 with
          | b3 :: bs3 =>
            if isCont b3 then
              Char.ofNat ((b % 0x10) * 4096 + (b2 % 64) * 64 + b3 % 64) :: utf8DecodeLossy bs3
            else replChar :: utf8DecodeLossy (b3 :: bs3)
          | [] => [replChar]
        else replChar :: utf8DecodeLossy (b2 :: bs2)
      | [] => [replChar]
    else if 0xF0 ≤ b && b ≤ 0xF4 then
      match bs with
      | b2 :: bs2 =>
        if valid2nd4 b b2 then
          match bs2 with
          | b3 :: bs3 =>
            if isCont b3 then
              match bs3 with
              | b4 :: bs4 =>
                if isCont b4 then
                  Char.ofNat ((b % 8) * 262144 + (b2 % 64) * 4096 + (b3 % 64) * 64 + b4 % 64)
                    :: utf8DecodeLossy bs4
                else replChar :: utf8DecodeLossy (b4 :: bs4)
              | [] => [replChar]
            else replChar :: utf8DecodeLossy (b3 :: bs3)
          | [] => [replChar]
        else replChar :: utf8DecodeLossy (b2 :: bs2)
      | [] => [replChar]
    else replChar :: utf8DecodeLossy bs
termination_by l => l.length
decreasing_by all_goals (simp only [List.length_cons]; omega)

/-- The result of `Command::output()` on a completed child:
`status.success()`, the `Display` rendering of the status, and the raw
captured stdout/stderr bytes. -/
structure Output where
  success : Bool
  statusDisplay : List Char
  stdout : List Nat
  stderr : List Nat
  deriving DecidableEq

/-- The data `Execution::run` hands to the OS spawn primitive:
`Command::new(&exec.cmd).args(&exec.args).envs(envs)`. -/
structure Invocation where
  cmd : Token
  args : List Token
  envs : List (Token × Token)
  deriving DecidableEq

/-- What the OS returns for a spawn attempt: a completed `Output`, or an
`io::Error` (its rendering) when the child could not be created. -/
inductive SpawnResult where
  | ok (out : Output)
  | err (msg : List Char)
  deriving DecidableEq

/-- The OS process boundary, as a parameter of the embedding: what
`Command::output()` would return for each invocation. -/
abbrev SpawnOracle := Invocation → SpawnResult

/-- Outcome of one `run` call. The Rust method returns `()` on success and
panics otherwise; each panic site of `Execution::run` gets a constructor,
carrying its panic message where one is built. -/
inductive RunOutcome where
  | success
  | panicMissingCommand
  | panicSpawnFailure (msg : List Char)
  | panicNonSuccess (diag : List Char)
  | panicUtf8Decode
  deriving DecidableEq

/-- The magenta highlight prefix for the command line, `"\x1b[95m"`. -/
def escMagenta : List Char := "\x1b[95m".data

/-- The green highlight prefix for stdout, `"\x1b[92m"`. -/
def escGreen : List Char := "\x1b[92m".data

/-- The red highlight prefix for stderr, `"\x1b[91m"`. -/
def escRed : List Char := "\x1b[91m".data

/-- The ANSI reset suffix, `"\x1b[0m"`. -/
def escReset : List Char := "\x1b[0m".data

/-- The rendered command line: every token (command first, then arguments)
converted with `to_string_lossy` and joined by single spaces
(`cmd.join(" ")` in `Display::fmt`). -/
def cmdLine (cmd : Token) (args : List Token) : List Char :=
  List.intercalate [' '] ((cmd :: args).map utf8DecodeLossy)

/-- Model of `impl Display for Execution`: the diagnostic text, or `none` when one of
the `from_utf8(..).unwrap()` calls panics (invalid UTF-8 in a non-empty
captured stream). Writes, in order: the highlighted command line; if a
result is present: the status on its own line when not successful, then the
highlighted stdout when non-empty, then the highlighted stderr when
non-empty. -/
def Execution.display (cmd : Token) (args : List Token) (result : Option Output) :
    Option (List Char) :=
  let head := escMagenta ++ cmdLine cmd args ++ escReset
  match result with
  | none => some head
  | some out =>
    let s1 := if out.success then head else head ++ '\n' :: out.statusDisplay
    let s2? :=
      if out.stdout.isEmpty then some s1
      else (utf8Decode? out.stdout).map (fun t => s1 ++ '\n' :: (escGreen ++ (t ++ escReset)))
    match s2? with
    | none => none
    | some s2 =>
      if out.stderr.isEmpty then some s2
      else (utf8Decode? out.stderr).map (fun u => s2 ++ '\n' :: (escRed ++ (u ++ escReset)))

/-- The `.expect("Failed to execute command")` panic-message prefix: Rust
renders it as `"Failed to execute command: {os error}"`. -/
def expectSpawnMsg : List Char := "Failed to execute command: ".data

/-- Model of `Execution::run`: take the first token as the command (panicking with
"Missing command" when there is none), hand `(cmd, args, envs)` to the OS,
panic with the expect message on a spawn error, and on a completed child
assert success, panicking with the formatted diagnostic otherwise (or with
the UTF-8 decode panic when formatting itself panics). -/
def Execution.run (spawn : SpawnOracle) (args : List Token)
    (envs : List (Token × Token)) : RunOutcome :=
  match args with
  | [] => RunOutcome.panicMissingCommand
  | cmd :: rest =>
    match spawn ⟨cmd, rest, envs⟩ with
    | SpawnResult.err e => RunOutcome.panicSpawnFailure (expectSpawnMsg ++ e)
    | SpawnResult.ok out =>
      if out.success then RunOutcome.success
      else
        match Execution.display cmd rest (some out) with
        | some d => RunOutcome.panicNonSuccess d
        | none => RunOutcome.panicUtf8Decode

/-- Model of `Executor<K, V>`: holds the environment bindings supplied at
construction. -/
structure Executor where
  env : List (Token × Token)
  deriving DecidableEq

/-- Model of `Executor::new(env)`: stores the bindings as given. -/
def Executor.new (env : List (Token × Token)) : Executor := ⟨env⟩

/-- Model of `Executor::run(&self, args)`: delegates to `Execution::run`, passing
`self.env.clone()` (value passing models the clone). -/
def Executor.run (e : Executor) (spawn : SpawnOracle) (args : List Token) : RunOutcome :=
  Execution.run spawn args e.env

/-- One `&self` call of `Executor::run`, with the borrow made explicit:
the outcome, the bindings passed to the launch (`self.env.clone()`), and
the receiver as it stands after the call returns. -/
def Executor.runStep (e : Executor) (spawn : SpawnOracle) (args : List Token) :
    RunOutcome × List (Token × Token) × Executor :=
  (Execution.run spawn args e.env, e.env, e)

/-- A sequence of `run` calls on one executor, threading the receiver from
call to call; returns each call's (outcome, bindings passed) and the final
receiver. -/
def Executor.runSeq (e : Executor) :
    List (SpawnOracle × List Token) → List (RunOutcome × List (Token × Token)) × Executor
  | [] => ([], e)
  | (sp, args) :: rest =>
    let step := e.runStep sp args
    let tail := Executor.runSeq step.2.2 rest
    ((step.1, step.2.1) :: tail.1, tail.2)

/-- Lookup in an environment built by inserting the pairs of `l` in order
into a map (later inserts overwrite earlier ones), as
`Command::envs` does: the value of the last binding of `k`, if any. -/
def lookupLast : List (Token × Token) → Token → Option Token
  | [], _ => none
  | kv :: rest, k =>
    match lookupLast rest k with
    | some v => some v
    | none => if kv.1 = k then some kv.2 else none

/-- The environment a spawned child observes, per the standard OS merge
semantics the spec fixes for `Command::output()`: the parent environment
updated with the supplied bindings, supplied bindings winning on collision
(and among the supplied bindings, the last insert of a key winning). -/
def mergedEnv (parent supplied : List (Token × Token)) (k : Token) : Option Token :=
  match lookupLast supplied k with
  | some v => some v
  | none => lookupLast parent k

/-- The environment observed by the child of an invocation, given the
parent environment. -/
def childEnv (parent : List (Token × Token)) (inv : Invocation) (k : Token) : Option Token :=
  mergedEnv parent inv.envs k

/-- Text `d` contains `s` as a contiguous run of characters. -/
def containsText (d s : List Char) : Prop := ∃ pre post, d = pre ++ s ++ post

/-! ### Helper lemmas -/

/-- Closed form of the diagnostic when both captured streams decode. -/
theorem display_some_eq (cmd : Token) (args : List Token) (out : Output) (t u : List Char)
    (ht : utf8Decode? out.stdout = some t) (hu : utf8Decode? out.stderr = some u) :
    Execution.display cmd args (some out) =
      some ((escMagenta ++ cmdLine cmd args ++ escReset)
        ++ (if out.success then [] else '\n' :: out.statusDisplay)
        ++ (if out.stdout.isEmpty then [] else '\n' :: (escGreen ++ (t ++ escReset)))
        ++ (if out.stderr.isEmpty then [] else '\n' :: (escRed ++ (u ++ escReset)))) := by
  cases hsu : out.success <;> cases hso : out.stdout.isEmpty <;>
    cases hse : out.stderr.isEmpty <;>
      simp [Execution.display, ht, hu, hsu, hso, hse, List.append_assoc]

/-- The formatter fails exactly when a non-empty captured stream is invalid
UTF-8. -/
theorem display_none_iff (cmd : Token) (args : List Token) (out : Output) :
    Execution.display cmd args (some out) = none ↔
      (out.stdout ≠ [] ∧ utf8Decode? out.stdout = none) ∨
      (out.stderr ≠ [] ∧ utf8Decode? out.stderr = none) := by
  cases hso : out.stdout.isEmpty <;> cases hdo : utf8Decode? out.stdout <;>
    cases hse : out.stderr.isEmpty <;> cases hde : utf8Decode? out.stderr <;>
      simp_all [Execution.display, List.isEmpty_iff, List.isEmpty_eq_false]

/-- Unfolding of one launch whose spawn attempt got an answer from the OS. -/
theorem run_ok_eq (spawn : SpawnOracle) (cmd : Token) (rest : List Token)
    (envs : List (Token × Token)) (out : Output)
    (hspawn : spawn ⟨cmd, rest, envs⟩ = SpawnResult.ok out) :
    Execution.run spawn (cmd :: rest) envs =
      if out.success then RunOutcome.success
      else
        match Execution.display cmd rest (some out) with
        | some d => RunOutcome.panicNonSuccess d
        | none => RunOutcome.panicUtf8Decode := by
  simp [Execution.run, hspawn]

/-- A key bound nowhere in the list has no last binding. -/
theorem lookupLast_eq_none_of_not_mem (l : List (Token × Token)) (k : Token)
    (h : k ∉ l.map Prod.fst) : lookupLast l k = none := by
  induction l with
  | nil => rfl
  | cons kv rest ih =>
    simp only [List.map_cons, List.mem_cons, not_or] at h
    have hrest := ih h.2
    simp only [lookupLast, hrest, if_neg (fun e : kv.1 = k => h.1 e.symm)]

/-- With pairwise-distinct keys, the last binding of a present key is its
unique binding. -/
theorem lookupLast_of_nodup_mem (l : List (Token × Token)) (k v : Token)
    (hn : (l.map Prod.fst).Nodup) (h : (k, v) ∈ l) : lookupLast l k = some v := by
  induction l with
  | nil => cases h
  | cons kv rest ih =>
    simp only [List.map_cons, List.nodup_cons] at hn
    rcases List.mem_cons.mp h with heq | hmem
    · cases heq
      have hnone := lookupLast_eq_none_of_not_mem rest k hn.1
      simp [lookupLast, hnone]
    · simp [lookupLast, ih hn.2 hmem]

/-! ### Claim theorems -/

/-- C1: for every invocation whose child is spawnable and exits with a success
status, `run` returns normally with no diagnostic emitted, regardless of what
the child printed to stdout or stderr (including non-UTF-8 bytes). -/
theorem run_success_silent (e : Executor) (spawn : SpawnOracle) (cmd : Token)
    (rest : List Token) (out : Output)
    (hspawn : spawn ⟨cmd, rest, e.env⟩ = SpawnResult.ok out)
    (hsucc : out.success = true) :
    e.run spawn (cmd :: rest) = RunOutcome.success := by
  simp [Executor.run, Execution.run, hspawn, hsucc]

/-- Witness for C1: a concrete child that exits 0 while writing the invalid
UTF-8 bytes `0xFF` / `0xFE` to its streams; the call still succeeds. -/
theorem run_success_silent_witness :
    (fun _ => SpawnResult.ok ⟨true, [], [255], [254]⟩ : SpawnOracle)
        ⟨[47, 98], [], (Executor.new []).env⟩ = SpawnResult.ok ⟨true, [], [255], [254]⟩
    ∧ (⟨true, [], [255], [254]⟩ : Output).success = true
    ∧ (Executor.new []).run (fun _ => SpawnResult.ok ⟨true, [], [255], [254]⟩) [[47, 98]]
        = RunOutcome.success :=
  ⟨rfl, rfl,
    run_success_silent (Executor.new []) (fun _ => SpawnResult.ok ⟨true, [], [255], [254]⟩)
      [47, 98] [] ⟨true, [], [255], [254]⟩ rfl rfl⟩

/-- C2: a child that runs to completion with a non-success status makes the
call fail fatally with the assert panic; the diagnostic contains the rendered
command line, the status indicator, the decoded stdout whenever stdout is
non-empty, and the decoded stderr whenever stderr is non-empty. -/
theorem run_nonzero_exit_diag (spawn : SpawnOracle) (cmd : Token) (rest : List Token)
    (envs : List (Token × Token)) (out : Output) (t u : List Char)
    (hspawn : spawn ⟨cmd, rest, envs⟩ = SpawnResult.ok out)
    (hfail : out.success = false)
    (ht : utf8Decode? out.stdout = some t) (hu : utf8Decode? out.stderr = some u) :
    ∃ d, Execution.run spawn (cmd :: rest) envs = RunOutcome.panicNonSuccess d
      ∧ containsText d (cmdLine cmd rest)
      ∧ containsText d out.statusDisplay
      ∧ (out.stdout ≠ [] → containsText d t)
      ∧ (out.stderr ≠ [] → containsText d u) := by
  have hd := display_some_eq cmd rest out t u ht hu
  rw [hfail] at hd
  simp only [Bool.false_eq_true, if_false] at hd
  refine ⟨(escMagenta ++ cmdLine cmd rest ++ escReset)
      ++ ('\n' :: out.statusDisplay)
      ++ (if out.stdout.isEmpty then [] else '\n' :: (escGreen ++ (t ++ escReset)))
      ++ (if out.stderr.isEmpty then [] else '\n' :: (escRed ++ (u ++ escReset))),
    ?_, ?_, ?_, ?_, ?_⟩
  · rw [run_ok_eq spawn cmd rest envs out hspawn, hfail, hd]
    simp
  · exact ⟨escMagenta, escReset ++ ('\n' :: out.statusDisplay)
      ++ (if out.stdout.isEmpty then [] else '\n' :: (escGreen ++ (t ++ escReset)))
      ++ (if out.stderr.isEmpty then [] else '\n' :: (escRed ++ (u ++ escReset))),
      by simp [List.append_assoc]⟩
  · exact ⟨(escMagenta ++ cmdLine cmd rest ++ escReset) ++ ['\n'],
      (if out.stdout.isEmpty then [] else '\n' :: (escGreen ++ (t ++ escReset)))
        ++ (if out.stderr.isEmpty then [] else '\n' :: (escRed ++ (u ++ escReset))),
      by simp [List.append_assoc]⟩
  · intro hne
    have hso : out.stdout.isEmpty = false := List.isEmpty_eq_false.mpr hne
    rw [hso]
    exact ⟨(escMagenta ++ cmdLine cmd rest ++ escReset) ++ ('\n' :: out.statusDisplay)
        ++ ('\n' :: escGreen),
      escReset ++ (if out.stderr.isEmpty then [] else '\n' :: (escRed ++ (u ++ escReset))),
      by simp [List.append_assoc]⟩
  · intro hne
    have hse : out.stderr.isEmpty = false := List.isEmpty_eq_false.mpr hne
    rw [hse]
    exact ⟨(escMagenta ++ cmdLine cmd rest ++ escReset) ++ ('\n' :: out.statusDisplay)
        ++ (if out.stdout.isEmpty then [] else '\n' :: (escGreen ++ (t ++ escReset)))
        ++ ('\n' :: escRed),
      escReset,
      by simp [List.append_assoc]⟩

/-- Witness for C2: a concrete failed child printing `hello` and `oops`. -/
theorem run_nonzero_exit_diag_witness :
    (fun _ => SpawnResult.ok
        ⟨false, "exit status: 1".data, "hello".data.map Char.toNat, "oops".data.map Char.toNat⟩
      : SpawnOracle) ⟨[47, 98], [[45, 99]], []⟩
      = SpawnResult.ok
        ⟨false, "exit status: 1".data, "hello".data.map Char.toNat, "oops".data.map Char.toNat⟩
    ∧ utf8Decode? ("hello".data.map Char.toNat) = some "hello".data
    ∧ utf8Decode? ("oops".data.map Char.toNat) = some "oops".data
    ∧ (∃ d,
        Execution.run
            (fun _ => SpawnResult.ok ⟨false, "exit status: 1".data,
              "hello".data.map Char.toNat, "oops".data.map Char.toNat⟩)
            ([47, 98] :: [[45, 99]]) []
          = RunOutcome.panicNonSuccess d
        ∧ containsText d (cmdLine [47, 98] [[45, 99]])
        ∧ containsText d "exit status: 1".data
        ∧ ("hello".data.map Char.toNat ≠ [] → containsText d "hello".data)
        ∧ ("oops".data.map Char.toNat ≠ [] → containsText d "oops".data)) :=
  ⟨rfl, by decide, by decide,
    run_nonzero_exit_diag
      (fun _ => SpawnResult.ok ⟨false, "exit status: 1".data,
        "hello".data.map Char.toNat, "oops".data.map Char.toNat⟩)
      [47, 98] [[45, 99]] []
      ⟨false, "exit status: 1".data, "hello".data.map Char.toNat, "oops".data.map Char.toNat⟩
      "hello".data "oops".data rfl rfl (by decide) (by decide)⟩

/-- C3: launching with an empty token sequence always hits the
"Missing command" panic, whatever the environment bindings. -/
theorem run_empty_args_missing_command (e : Executor) (spawn : SpawnOracle) :
    e.run spawn [] = RunOutcome.panicMissingCommand
    ∧ ∀ envs : List (Token × Token),
        Execution.run spawn [] envs = RunOutcome.panicMissingCommand :=
  ⟨rfl, fun _ => rfl⟩

/-- C4: when the OS cannot create the child, the call fails fatally with a
message reporting "Failed to execute command" together with the OS error. -/
theorem run_spawn_failure (spawn : SpawnOracle) (cmd : Token) (rest : List Token)
    (envs : List (Token × Token)) (emsg : List Char)
    (hspawn : spawn ⟨cmd, rest, envs⟩ = SpawnResult.err emsg) :
    Execution.run spawn (cmd :: rest) envs
        = RunOutcome.panicSpawnFailure (expectSpawnMsg ++ emsg)
    ∧ containsText (expectSpawnMsg ++ emsg) "Failed to execute command".data
    ∧ containsText (expectSpawnMsg ++ emsg) emsg := by
  have hsplit : expectSpawnMsg = "Failed to execute command".data ++ ": ".data := by decide
  refine ⟨by simp [Execution.run, hspawn], ?_, ⟨expectSpawnMsg, [], by simp⟩⟩
  exact ⟨[], ": ".data ++ emsg, by rw [hsplit]; simp [List.append_assoc]⟩

/-- Witness for C4: a concrete missing-binary error. -/
theorem run_spawn_failure_witness :
    (fun _ => SpawnResult.err "No such file or directory".data : SpawnOracle)
        ⟨[47, 98], [], []⟩ = SpawnResult.err "No such file or directory".data
    ∧ (Execution.run (fun _ => SpawnResult.err "No such file or directory".data) [[47, 98]] []
          = RunOutcome.panicSpawnFailure (expectSpawnMsg ++ "No such file or directory".data)
        ∧ containsText (expectSpawnMsg ++ "No such file or directory".data)
            "Failed to execute command".data
        ∧ containsText (expectSpawnMsg ++ "No such file or directory".data)
            "No such file or directory".data) :=
  ⟨rfl,
    run_spawn_failure (fun _ => SpawnResult.err "No such file or directory".data)
      [47, 98] [] [] "No such file or directory".data rfl⟩

/-- Counterexample to C5 as stated: with the duplicate-keyed bindings
`[(A, 1), (A, 2)]` and an empty parent environment, the supplied binding
`(A, 1)` is not observed by the child (the later insert of `A` wins in the
environment map built by `Command::envs`). -/
theorem new_duplicate_binding_not_observed :
    ([65], [49]) ∈ (Executor.new [([65], [49]), ([65], [50])]).env
    ∧ childEnv [] ⟨[47, 98], [], (Executor.new [([65], [49]), ([65], [50])]).env⟩ [65]
        ≠ some [49] := by
  decide

/-- C5 (amended): `run` passes the stored bindings unchanged to the launch;
the child of the resulting invocation observes the parent environment merged
with the supplied bindings, supplied bindings taking precedence on collision
with the parent; for a key supplied more than once the last binding wins, so
every supplied binding is observed whenever the supplied keys are distinct. -/
theorem run_child_env_merge (e : Executor) (spawn : SpawnOracle) (cmd : Token)
    (rest : List Token) (parent : List (Token × Token)) :
    e.run spawn (cmd :: rest) = Execution.run spawn (cmd :: rest) e.env
    ∧ (∀ k v, lookupLast e.env k = some v → childEnv parent ⟨cmd, rest, e.env⟩ k = some v)
    ∧ (∀ k, lookupLast e.env k = none → childEnv parent ⟨cmd, rest, e.env⟩ k = lookupLast parent k)
    ∧ ((e.env.map Prod.fst).Nodup →
        ∀ k v, (k, v) ∈ e.env → childEnv parent ⟨cmd, rest, e.env⟩ k = some v) := by
  refine ⟨rfl, ?_, ?_, ?_⟩
  · intro k v h
    simp [childEnv, mergedEnv, h]
  · intro k h
    simp [childEnv, mergedEnv, h]
  · intro hn k v hm
    have hl := lookupLast_of_nodup_mem e.env k v hn hm
    simp [childEnv, mergedEnv, hl]

/-- Witness for the amended C5: one binding `FOO=BAR`-style (`A=1`), a parent
that also binds `A` (overridden) and `B` (inherited). -/
theorem run_child_env_merge_witness :
    childEnv [([66], [50]), ([65], [48])]
        ⟨[47, 98], [], (Executor.new [([65], [49])]).env⟩ [65] = some [49]
    ∧ childEnv [([66], [50]), ([65], [48])]
        ⟨[47, 98], [], (Executor.new [([65], [49])]).env⟩ [66] = some [50] := by
  have h := run_child_env_merge (Executor.new [([65], [49])])
    (fun _ => SpawnResult.ok ⟨true, [], [], []⟩) [47, 98] [] [([66], [50]), ([65], [48])]
  refine ⟨h.2.1 [65] [49] (by decide), ?_⟩
  have hb := h.2.2.1 [66] (by decide)
  rw [hb]
  decide

/-- C6: the diagnostic for a completed invocation is, in order: the
highlighted command line (always); iff the status is not success, the status
description on its own line; iff stdout is non-empty, the highlighted decoded
stdout on its own line; iff stderr is non-empty, the highlighted decoded
stderr on its own line. -/
theorem display_diag_structure (cmd : Token) (args : List Token) (out : Output)
    (t u : List Char)
    (ht : utf8Decode? out.stdout = some t) (hu : utf8Decode? out.stderr = some u) :
    Execution.display cmd args (some out) =
      some ((escMagenta ++ cmdLine cmd args ++ escReset)
        ++ (if out.success then [] else '\n' :: out.statusDisplay)
        ++ (if out.stdout.isEmpty then [] else '\n' :: (escGreen ++ (t ++ escReset)))
        ++ (if out.stderr.isEmpty then [] else '\n' :: (escRed ++ (u ++ escReset)))) :=
  display_some_eq cmd args out t u ht hu

/-- Witness for C6 on a concrete failed invocation printing `h` and `o`. -/
theorem display_diag_structure_witness :
    utf8Decode? [104] = some ['h']
    ∧ utf8Decode? [111] = some ['o']
    ∧ Execution.display [47, 98] [[45, 99]]
        (some ⟨false, "exit status: 1".data, [104], [111]⟩) =
      some ((escMagenta ++ cmdLine [47, 98] [[45, 99]] ++ escReset)
        ++ (if (⟨false, "exit status: 1".data, [104], [111]⟩ : Output).success then []
            else '\n' :: (⟨false, "exit status: 1".data, [104], [111]⟩ : Output).statusDisplay)
        ++ (if (⟨false, "exit status: 1".data, [104], [111]⟩ : Output).stdout.isEmpty then []
            else '\n' :: (escGreen ++ (['h'] ++ escReset)))
        ++ (if (⟨false, "exit status: 1".data, [104], [111]⟩ : Output).stderr.isEmpty then []
            else '\n' :: (escRed ++ (['o'] ++ escReset)))) :=
  ⟨by decide, by decide,
    display_diag_structure [47, 98] [[45, 99]] ⟨false, "exit status: 1".data, [104], [111]⟩
      ['h'] ['o'] (by decide) (by decide)⟩

/-- C7: if a non-empty captured stream of a failed invocation is not valid
UTF-8, the decoding failure itself is the fatal condition at format time. -/
theorem run_decode_failure_fatal (spawn : SpawnOracle) (cmd : Token) (rest : List Token)
    (envs : List (Token × Token)) (out : Output)
    (hspawn : spawn ⟨cmd, rest, envs⟩ = SpawnResult.ok out)
    (hfail : out.success = false)
    (hbad : (out.stdout ≠ [] ∧ utf8Decode? out.stdout = none)
          ∨ (out.stderr ≠ [] ∧ utf8Decode? out.stderr = none)) :
    Execution.run spawn (cmd :: rest) envs = RunOutcome.panicUtf8Decode := by
  have hnone : Execution.display cmd rest (some out) = none :=
    (display_none_iff cmd rest out).mpr hbad
  rw [run_ok_eq spawn cmd rest envs out hspawn, hfail, hnone]
  simp

/-- Witness for C7: a concrete failed child whose stdout is the invalid
byte `0xFF`. -/
theorem run_decode_failure_fatal_witness :
    (fun _ => SpawnResult.ok ⟨false, "exit status: 1".data, [255], []⟩ : SpawnOracle)
        ⟨[47, 98], [], []⟩ = SpawnResult.ok ⟨false, "exit status: 1".data, [255], []⟩
    ∧ (⟨false, "exit status: 1".data, [255], []⟩ : Output).success = false
    ∧ (([255] : List Nat) ≠ [] ∧ utf8Decode? [255] = none)
    ∧ Execution.run (fun _ => SpawnResult.ok ⟨false, "exit status: 1".data, [255], []⟩)
        [[47, 98]] [] = RunOutcome.panicUtf8Decode :=
  ⟨rfl, rfl, ⟨by decide, by decide⟩,
    run_decode_failure_fatal
      (fun _ => SpawnResult.ok ⟨false, "exit status: 1".data, [255], []⟩)
      [47, 98] [] [] ⟨false, "exit status: 1".data, [255], []⟩ rfl rfl
      (Or.inl ⟨by decide, by decide⟩)⟩

/-- C8: `run` hands each launch a clone of the stored bindings and never
mutates them: across any sequence of calls the receiver is unchanged and
every call passes exactly the originally stored bindings. -/
theorem run_preserves_bindings (e : Executor) (calls : List (SpawnOracle × List Token)) :
    (Executor.runSeq e calls).2 = e
    ∧ (Executor.runSeq e calls).1.map (fun r => r.2) = List.replicate calls.length e.env
    ∧ ∀ (spawn : SpawnOracle) (args : List Token),
        e.run spawn args = Execution.run spawn args e.env := by
  refine ⟨?_, ?_, fun _ _ => rfl⟩
  · induction calls with
    | nil => rfl
    | cons c cs ih => simpa [Executor.runSeq, Executor.runStep] using ih
  · induction calls with
    | nil => rfl
    | cons c cs ih => simpa [Executor.runSeq, Executor.runStep, List.replicate] using ih

/-- C9: the constructor stores the supplied bindings verbatim — order kept,
no validation, no deduplication — and never fails. -/
theorem new_stores_verbatim (l : List (Token × Token)) : (Executor.new l).env = l := rfl

/-- C10: rendering the command line never fails (tokens are converted
lossily), so the formatter can only fail through a non-empty, invalid
captured stdout or stderr. -/
theorem display_cmdline_total (cmd : Token) (args : List Token) (result : Option Output) :
    Execution.display cmd args result = none ↔
      ∃ out, result = some out ∧
        ((out.stdout ≠ [] ∧ utf8Decode? out.stdout = none) ∨
         (out.stderr ≠ [] ∧ utf8Decode? out.stderr = none)) := by
  cases result with
  | none => simp [Execution.display]
  | some out => simp [display_none_iff]
